import Mathlib

/-!
Verification of the trading-bots repository against its specification.

The repository source (`src/index.js`) implements an Express HTTP server with a
single `GET /` route and no other code.  The accompanying document and the
specification describe a Supertrend/ATR signal-generation engine
(`computeATR`, `computeBands`, `computeSupertrend`, `generateSignals`) that is
not present in the source; those components are modelled here from the
specification's words and the stated claims are settled against that model.

All prices are modelled as rationals (`ℚ`); warm-up gaps are `Option.none`,
never zero; errors are values of an explicit error type returned through
`Except`, so a failed call emits no series at all.
-/

namespace TradingBot

/-! ## HTTP server model (from `src/index.js`, lines 1-13) -/

/-- An incoming HTTP request: method, path, headers and body. -/
structure HttpRequest where
  method : String
  path : String
  headers : List (String × String)
  body : String
deriving Repr, DecidableEq

/-- The fixed response body of the `GET /` route in `src/index.js`. -/
def welcomeBody : String := "Welcome to the Automated Trading Bot!"

/-- The request handler of the Express app in `src/index.js`: the only
registered route is `GET /`, which sends `welcomeBody`; every other request
falls through to the framework's not-found default, modelled as `none`. -/
def handle (req : HttpRequest) : Option String :=
  if req.method = "GET" ∧ req.path = "/" then some welcomeBody else none

/-- The routes registered on the Express app in `src/index.js`. -/
def registeredRoutes : List (String × String) := [("GET", "/")]

/-- The top-level names bound in `src/index.js` (`const express`, `const app`,
`const PORT`). No trading, indicator, or signal function is defined. -/
def indexJsTopLevelNames : List String := ["express", "app", "PORT"]

/-- The port selection `const PORT = process.env.PORT || 3000;` — the
environment value when it is a non-empty string (JavaScript truthiness of
strings), `"3000"` otherwise. -/
def listenPort (envPort : Option String) : String :=
  match envPort with
  | some s => if s = "" then "3000" else s
  | none => "3000"

/-! ## Claim C1 and C10 theorems -/

/-- C1: the program's only implemented HTTP operation is `GET` on path `/`,
every such request gets the fixed body `"Welcome to the Automated Trading
Bot!"`, and none of the trading / indicator operations is implemented
anywhere in the source. -/
theorem c1_only_get_root_implemented :
    (∀ req : HttpRequest, (handle req).isSome ↔ (req.method = "GET" ∧ req.path = "/")) ∧
    (∀ req : HttpRequest, req.method = "GET" → req.path = "/" →
      handle req = some welcomeBody) ∧
    registeredRoutes = [("GET", "/")] ∧
    (∀ f ∈ ["computeATR", "computeBands", "computeSupertrend", "generateSignals",
            "calculate_atr", "calculate_supertrend", "generate_signals"],
      f ∉ indexJsTopLevelNames) := by
  refine ⟨fun req => ?_, fun req hm hp => ?_, rfl, by decide⟩
  · unfold handle
    constructor
    · intro h
      by_contra hc
      rw [if_neg hc] at h
      exact Bool.noConfusion h
    · intro h
      rw [if_pos h]
      exact Option.isSome_some
  · unfold handle
    rw [if_pos ⟨hm, hp⟩]

/-- C10: the listening port is the environment variable `PORT` when non-empty
and `3000` otherwise, and the `GET /` response does not depend on any part of
the request, so any two requests receive identical responses. -/
theorem c10_port_and_uniform_response :
    (∀ s : String, s ≠ "" → listenPort (some s) = s) ∧
    listenPort (some ("")) = "3000" ∧
    listenPort none = "3000" ∧
    (∀ r₁ r₂ : HttpRequest, handle r₁ = some welcomeBody → handle r₂ ≠ none →
      handle r₁ = handle r₂) := by
  refine ⟨fun s hs => ?_, rfl, rfl, fun r₁ r₂ h₁ h₂ => ?_⟩
  · simp only [listenPort, if_neg hs]
  · unfold handle at h₂ ⊢
    by_cases hc : r₂.method = "GET" ∧ r₂.path = "/"
    · rw [if_pos hc]
      exact h₁
    · rw [if_neg hc] at h₂
      exact absurd rfl h₂

/-- Closed witness for `c10_port_and_uniform_response`. -/
theorem c10_port_and_uniform_response_witness :
    listenPort (some ("8080")) = "8080" ∧
    handle ⟨"GET", "/", [], ""⟩ = handle ⟨"GET", "/", [("X", "y")], "b"⟩ := by
  refine ⟨(c10_port_and_uniform_response.1 ("8080") (by decide)), ?_⟩
  exact (c10_port_and_uniform_response.2.2.2 ⟨"GET", "/", [], ""⟩
    ⟨"GET", "/", [("X", "y")], "b"⟩ (by decide) (by decide))

/-! ## Spec-modelled indicator engine

The trading engine is not present in the repository source; only the HTTP
server is.  The definitions below are modelled from the specification
(sections 3, 4 and 7) and carry a `Modelled from the spec:` note. -/

/-- One OHLC bar: time-indexed record `{timestamp, open, high, low, close}`
(spec section 3).  The `open` field is called `openPrice` here. -/
structure Bar where
  timestamp : ℤ
  openPrice : ℚ
  high : ℚ
  low : ℚ
  close : ℚ
deriving Repr, DecidableEq

/-- Modelled from the spec: the True Range of `computeATR` (missing from
source, spec section 4.1).  At bar 0 it is `high - low`; at bar `i ≥ 1` it is
`max(high_i - low_i, |high_i - close_{i-1}|, |low_i - close_{i-1}|)`.
`none` outside the series. -/
def trueRange (data : List Bar) : ℕ → Option ℚ
  | 0 => (data.get? 0).map (fun b => b.high - b.low)
  | i + 1 =>
    match data.get? (i + 1), data.get? i with
    | some b, some p =>
      some (max (b.high - b.low) (max (abs (b.high - p.close)) (abs (b.low - p.close))))
    | _, _ => none

/-- Modelled from the spec: `computeATR` (missing from source, spec section
4.1).  The simple moving average of True Range over the trailing `period`
bars; `none` (undefined, not zero) before `period` observations exist. -/
def computeATR (data : List Bar) (period : ℕ) (i : ℕ) : Option ℚ :=
  if 1 ≤ period ∧ period ≤ i + 1 ∧ i < data.length then
    some (((List.range period).map (fun j => (trueRange data (i - j)).getD 0)).sum
      / (period : ℚ))
  else none

/-- Modelled from the spec: the raw upper band of `computeBands` (missing from
source, spec section 4.2): `mid_i + multiplier * ATR_i`, undefined where ATR
is undefined. -/
def rawUpper (data : List Bar) (period : ℕ) (m : ℚ) (i : ℕ) : Option ℚ :=
  match data.get? i, computeATR data period i with
  | some b, some a => some ((b.high + b.low) / 2 + m * a)
  | _, _ => none

/-- Modelled from the spec: the raw lower band of `computeBands` (missing from
source, spec section 4.2): `mid_i - multiplier * ATR_i`, undefined where ATR
is undefined. -/
def rawLower (data : List Bar) (period : ℕ) (m : ℚ) (i : ℕ) : Option ℚ :=
  match data.get? i, computeATR data period i with
  | some b, some a => some ((b.high + b.low) / 2 - m * a)
  | _, _ => none

/-- Modelled from the spec: the adjusted upper band of `computeBands` (missing
from source, spec section 4.2).  The first defined bar initializes to the raw
band; afterwards `adj_upper_i = raw_upper_i` if `raw_upper_i < adj_upper_{i-1}`
or `close_{i-1} > adj_upper_{i-1}`, else `adj_upper_{i-1}`. -/
def adjUpper (data : List Bar) (period : ℕ) (m : ℚ) : ℕ → Option ℚ
  | 0 => rawUpper data period m 0
  | i + 1 =>
    match rawUpper data period m (i + 1) with
    | none => none
    | some ru =>
      match adjUpper data period m i, data.get? i with
      | some pu, some pb => if ru < pu ∨ pb.close > pu then some ru else some pu
      | _, _ => some ru

/-- Modelled from the spec: the adjusted lower band of `computeBands` (missing
from source, spec section 4.2).  The first defined bar initializes to the raw
band; afterwards `adj_lower_i = raw_lower_i` if `raw_lower_i > adj_lower_{i-1}`
or `close_{i-1} < adj_lower_{i-1}`, else `adj_lower_{i-1}`. -/
def adjLower (data : List Bar) (period : ℕ) (m : ℚ) : ℕ → Option ℚ
  | 0 => rawLower data period m 0
  | i + 1 =>
    match rawLower data period m (i + 1) with
    | none => none
    | some rl =>
      match adjLower data period m i, data.get? i with
      | some pl, some pb => if rl > pl ∨ pb.close < pl then some rl else some pl
      | _, _ => some rl

/-- Modelled from the spec: `computeBands` (missing from source, spec section
4.2), bundling raw and adjusted bands per bar as
`(raw_upper, raw_lower, adj_upper, adj_lower)`. -/
def computeBands (data : List Bar) (period : ℕ) (m : ℚ) (i : ℕ) :
    Option (ℚ × ℚ × ℚ × ℚ) :=
  match rawUpper data period m i, rawLower data period m i,
        adjUpper data period m i, adjLower data period m i with
  | some ru, some rl, some au, some al => some (ru, rl, au, al)
  | _, _, _, _ => none

/-- Modelled from the spec: the seeding rule of `computeSupertrend` (missing
from source, spec sections 4.3 and 8): the first direction compares close to
the midpoint of the raw bands (which is `(high + low) / 2`), defaulting to
bullish `+1` when ambiguous. -/
def dirSeed (b : Bar) : Int :=
  if b.close < (b.high + b.low) / 2 then -1 else 1

/-- Modelled from the spec: one transition of the `computeSupertrend` state
machine (missing from source, spec section 4.3): from bullish, turn bearish
iff close falls below the adjusted lower band; from bearish, turn bullish iff
close rises above the adjusted upper band. -/
def dirStep (b : Bar) (au al : ℚ) (d : Int) : Int :=
  if d = 1 then (if b.close < al then -1 else 1)
  else (if b.close > au then 1 else -1)

/-- Modelled from the spec: the direction series of `computeSupertrend`
(missing from source, spec section 4.3), `none` while the bands are
undefined, seeded at the first defined bar, then stepped per bar. -/
def direction (data : List Bar) (period : ℕ) (m : ℚ) : ℕ → Option Int
  | 0 =>
    match adjUpper data period m 0, adjLower data period m 0, data.get? 0 with
    | some _, some _, some b => some (dirSeed b)
    | _, _, _ => none
  | i + 1 =>
    match adjUpper data period m (i + 1), adjLower data period m (i + 1),
          data.get? (i + 1) with
    | some au, some al, some b =>
      match direction data period m i with
      | none => some (dirSeed b)
      | some d => some (dirStep b au al d)
    | _, _, _ => none

/-- Modelled from the spec: the Supertrend value series of `computeSupertrend`
(missing from source, spec section 4.3): the adjusted lower band when
bullish, the adjusted upper band when bearish. -/
def supertrendValue (data : List Bar) (period : ℕ) (m : ℚ) (i : ℕ) : Option ℚ :=
  match direction data period m i, adjUpper data period m i, adjLower data period m i with
  | some d, some au, some al => some (if d = 1 then al else au)
  | _, _, _ => none

/-- Modelled from the spec: `computeSupertrend` (missing from source, spec
section 4.3), bundling the per-bar Supertrend value and direction. -/
def computeSupertrend (data : List Bar) (period : ℕ) (m : ℚ) (i : ℕ) :
    Option (ℚ × Int) :=
  match supertrendValue data period m i, direction data period m i with
  | some st, some d => some (st, d)
  | _, _ => none

/-- Modelled from the spec: the per-bar signal of `generateSignals` (missing
from source, spec section 4.4).  Single mode maps the direction directly;
dual mode emits `+1` iff both the fast (`m`) and slow (`m + 1`) directions
are bullish, `-1` iff both bearish, `0` otherwise. -/
def signal (data : List Bar) (period : ℕ) (m : ℚ) (use_dual : Bool) (i : ℕ) : Int :=
  if use_dual then
    match direction data period m i, direction data period (m + 1) i with
    | some d₁, some d₂ =>
      if d₁ = 1 ∧ d₂ = 1 then 1 else if d₁ = -1 ∧ d₂ = -1 then -1 else 0
    | _, _ => 0
  else (direction data period m i).getD 0

/-- Modelled from the spec: the position-change series of `generateSignals`
(missing from source, spec section 4.4): zero at the first bar,
`signal_i - signal_{i-1}` afterwards. -/
def positionChange (data : List Bar) (period : ℕ) (m : ℚ) (use_dual : Bool) : ℕ → Int
  | 0 => 0
  | i + 1 => signal data period m use_dual (i + 1) - signal data period m use_dual i

/-- Error taxonomy of spec section 7. -/
inductive SignalError where
  | InvalidParameter
  | InsufficientData
  | MalformedInput
deriving Repr, DecidableEq

/-- Strictly increasing timestamps across consecutive bars (spec section 3). -/
def timestampsIncreasing : List Bar → Bool
  | [] => true
  | [_] => true
  | a :: b :: rest => decide (a.timestamp < b.timestamp) && timestampsIncreasing (b :: rest)

/-- Every bar satisfies `low ≤ high` (spec section 7, `MalformedInput`). -/
def barsWellFormed (data : List Bar) : Bool :=
  data.all (fun b => decide (b.low ≤ b.high))

/-- One record of the output series of `generateSignals` (spec section 3):
`{signal, supertrend, direction, slow_supertrend?, slow_direction?,
position_change}`, with `none` for warm-up gaps and absent slow fields. -/
structure SignalRecord where
  signal : Int
  supertrend : Option ℚ
  direction : Option Int
  slow_supertrend : Option ℚ
  slow_direction : Option Int
  position_change : Int
deriving Repr, DecidableEq

/-- Modelled from the spec: `generateSignals` (missing from source, spec
sections 4.4 and 7).  Validates parameters, warm-up length and input shape in
that order — `InvalidParameter` for a non-positive period or multiplier,
`InsufficientData` when the series is shorter than `atr_period + 1`,
`MalformedInput` for non-monotonic timestamps or `high < low` — and on
success emits the full derived series, one record per input bar. -/
def generateSignals (data : List Bar) (atr_period : ℕ) (atr_multiplier : ℚ)
    (use_dual : Bool) : Except SignalError (List SignalRecord) :=
  if atr_period = 0 ∨ atr_multiplier ≤ 0 then .error .InvalidParameter
  else if data.length < atr_period + 1 then .error .InsufficientData
  else if timestampsIncreasing data && barsWellFormed data then
    .ok ((List.range data.length).map (fun i =>
      { signal := signal data atr_period atr_multiplier use_dual i
        supertrend := supertrendValue data atr_period atr_multiplier i
        direction := direction data atr_period atr_multiplier i
        slow_supertrend :=
          if use_dual then supertrendValue data atr_period (atr_multiplier + 1) i else none
        slow_direction :=
          if use_dual then direction data atr_period (atr_multiplier + 1) i else none
        position_change := positionChange data atr_period atr_multiplier use_dual i }))
  else .error .MalformedInput

/-! ## Concrete series used by the closed witnesses -/

/-- A four-bar well-formed OHLC series used as a concrete witness input. -/
def dW : List Bar :=
  [⟨0, 8, 10, 5, 8⟩, ⟨1, 9, 12, 6, 11⟩, ⟨2, 10, 13, 7, 7⟩, ⟨3, 11, 14, 8, 13⟩]

/-- The successful output series of `generateSignals dW 2 1 true`, used by
several closed witnesses. -/
def outW : List SignalRecord := (generateSignals dW 2 1 true).toOption.getD []

/-- The successful output series of `generateSignals dW 2 3 true` (the default
multiplier 3), used by the closed witness of the dual-multiplier claim. -/
def outW3 : List SignalRecord := (generateSignals dW 2 3 true).toOption.getD []

/-- A three-bar series whose direction flips bullish to bearish at bar 2. -/
def dFlipDown : List Bar :=
  [⟨0, 10, 10, 10, 10⟩, ⟨1, 11, 12, 10, 11⟩, ⟨2, 8, 10, 6, 7⟩]

/-- A two-bar series whose direction flips bearish to bullish at bar 1. -/
def dFlipUp : List Bar :=
  [⟨0, 9, 10, 10, 9⟩, ⟨1, 13, 14, 12, 13⟩]

/-! ## Helper lemmas -/

/-- The seeded direction is bullish or bearish. -/
theorem dirSeed_mem (b : Bar) : dirSeed b = 1 ∨ dirSeed b = -1 := by
  unfold dirSeed
  by_cases h : b.close < (b.high + b.low) / 2
  · right
    rw [if_pos h]
  · left
    rw [if_neg h]

/-- The stepped direction is bullish or bearish. -/
theorem dirStep_mem (b : Bar) (au al : ℚ) (d : Int) :
    dirStep b au al d = 1 ∨ dirStep b au al d = -1 := by
  unfold dirStep
  by_cases h : d = 1
  · rw [if_pos h]
    by_cases hc : b.close < al
    · right
      rw [if_pos hc]
    · left
      rw [if_neg hc]
  · rw [if_neg h]
    by_cases hc : b.close > au
    · left
      rw [if_pos hc]
    · right
      rw [if_neg hc]

/-- Every defined value of the direction series is `1` or `-1`. -/
theorem direction_mem (data : List Bar) (p : ℕ) (m : ℚ) (i : ℕ) (d : Int)
    (h : direction data p m i = some d) : d = 1 ∨ d = -1 := by
  cases i with
  | zero =>
    simp only [direction] at h
    split at h
    · cases h
      exact dirSeed_mem _
    · cases h
  | succ j =>
    simp only [direction] at h
    split at h
    · split at h
      · cases h
        exact dirSeed_mem _
      · cases h
        exact dirStep_mem _ _ _ _
    · cases h

/-- A successful `generateSignals` call emits exactly the derived series, one
record per input bar. -/
theorem generateSignals_ok (data : List Bar) (p : ℕ) (m : ℚ) (dual : Bool)
    (out : List SignalRecord) (h : generateSignals data p m dual = .ok out) :
    out = (List.range data.length).map (fun i =>
      { signal := signal data p m dual i
        supertrend := supertrendValue data p m i
        direction := direction data p m i
        slow_supertrend := if dual then supertrendValue data p (m + 1) i else none
        slow_direction := if dual then direction data p (m + 1) i else none
        position_change := positionChange data p m dual i }) := by
  unfold generateSignals at h
  split at h
  · cases h
  · split at h
    · cases h
    · split at h
      · cases h
        rfl
      · cases h

/-- The `i`-th record of a successful `generateSignals` call. -/
theorem generateSignals_get (data : List Bar) (p : ℕ) (m : ℚ) (dual : Bool)
    (out : List SignalRecord) (h : generateSignals data p m dual = .ok out)
    (i : ℕ) (hi : i < out.length) :
    out.get ⟨i, hi⟩ =
      { signal := signal data p m dual i
        supertrend := supertrendValue data p m i
        direction := direction data p m i
        slow_supertrend := if dual then supertrendValue data p (m + 1) i else none
        slow_direction := if dual then direction data p (m + 1) i else none
        position_change := positionChange data p m dual i } := by
  have hout := generateSignals_ok data p m dual out h
  subst hout
  simp only [List.get_eq_getElem, List.getElem_map, List.getElem_range]

/-- The hypotheses of `generateSignals dW 2 1 true` all hold, and it returns
`outW` — the concrete successful call used by the closed witnesses. -/
theorem generateSignals_dW_eq : generateSignals dW 2 1 true = .ok outW := rfl

/-- The concrete successful call `generateSignals dW 2 3 true` returns
`outW3`. -/
theorem generateSignals_dW3_eq : generateSignals dW 2 3 true = .ok outW3 := rfl

/-! ## Claim C5 -/

/-- C5: the adjusted upper band is non-increasing except where the ratchet
resets (`raw_upper_i < adj_upper_{i-1}` fails and `close_{i-1} >
adj_upper_{i-1}` holds), and the adjusted lower band is non-decreasing except
where `close_{i-1} < adj_lower_{i-1}` holds. -/
theorem c5_band_ratchet_monotone (data : List Bar) (p : ℕ) (m : ℚ) (i : ℕ)
    (pu u ru pl l : ℚ) (pb : Bar)
    (hpu : adjUpper data p m i = some pu)
    (hu : adjUpper data p m (i + 1) = some u)
    (hru : rawUpper data p m (i + 1) = some ru)
    (hb : data.get? i = some pb)
    (hpl : adjLower data p m i = some pl)
    (hl : adjLower data p m (i + 1) = some l) :
    ((ru < pu ∨ pb.close ≤ pu) → u ≤ pu) ∧ (pl ≤ pb.close → pl ≤ l) := by
  constructor
  · intro hcase
    simp only [adjUpper, hru, hpu, hb] at hu
    by_cases hc : ru < pu ∨ pb.close > pu
    · rw [if_pos hc] at hu
      cases hu
      rcases hcase with h1 | h2
      · exact le_of_lt h1
      · rcases hc with h3 | h4
        · exact le_of_lt h3
        · exact absurd h4 (not_lt_of_le h2)
    · rw [if_neg hc] at hu
      cases hu
      exact le_refl pu
  · intro hcase
    simp only [adjLower, hpl, hb] at hl
    rcases hrl : rawLower data p m (i + 1) with _ | rl
    · rw [hrl] at hl
      cases hl
    · rw [hrl] at hl
      simp only at hl
      by_cases hc : rl > pl ∨ pb.close < pl
      · rw [if_pos hc] at hl
        cases hl
        rcases hc with h1 | h2
        · exact le_of_lt h1
        · exact absurd h2 (not_lt_of_le hcase)
      · rw [if_neg hc] at hl
        cases hl
        exact le_refl pl

/-- Closed witness for `c5_band_ratchet_monotone` on the concrete series
`dW` at bar 2 with period 2 and multiplier 1. -/
theorem c5_band_ratchet_monotone_witness :
    ((16 : ℚ) < 29 / 2 ∨ (11 : ℚ) ≤ 29 / 2 → (29 : ℚ) / 2 ≤ 29 / 2) ∧
    ((7 : ℚ) / 2 ≤ 11 → (7 : ℚ) / 2 ≤ 4) :=
  c5_band_ratchet_monotone dW 2 1 1 (29 / 2) (29 / 2) 16 (7 / 2) 4
    ⟨1, 9, 12, 6, 11⟩
    (by norm_num [adjUpper, rawUpper, computeATR, trueRange, dW, List.range_succ, max_def, abs])
    (by norm_num [adjUpper, rawUpper, computeATR, trueRange, dW, List.range_succ, max_def, abs])
    (by norm_num [rawUpper, computeATR, trueRange, dW, List.range_succ, max_def, abs])
    (by norm_num [dW])
    (by norm_num [adjLower, rawLower, computeATR, trueRange, dW, List.range_succ, max_def, abs])
    (by norm_num [adjLower, rawLower, computeATR, trueRange, dW, List.range_succ, max_def, abs])

/-! ## Claim C6 -/

/-- C6: the direction series flips bullish→bearish only at a bar whose close
is strictly below the adjusted lower band, and bearish→bullish only at a bar
whose close is strictly above the adjusted upper band, so no two flips happen
without the close crossing the opposite adjusted band in between. -/
theorem c6_direction_flip_requires_cross (data : List Bar) (p : ℕ) (m : ℚ) (i : ℕ) :
    (direction data p m i = some 1 → direction data p m (i + 1) = some (-1) →
      ∃ b al, data.get? (i + 1) = some b ∧ adjLower data p m (i + 1) = some al ∧
        b.close < al) ∧
    (direction data p m i = some (-1) → direction data p m (i + 1) = some 1 →
      ∃ b au, data.get? (i + 1) = some b ∧ adjUpper data p m (i + 1) = some au ∧
        b.close > au) := by
  constructor
  · intro hprev hnext
    simp only [direction] at hnext
    split at hnext
    · rename_i au al b hau hal hb
      rw [hprev] at hnext
      simp only [dirStep, if_pos rfl] at hnext
      by_cases hc : b.close < al
      · exact ⟨b, al, hb, hal, hc⟩
      · rw [if_neg hc] at hnext
        cases hnext
    · cases hnext
  · intro hprev hnext
    simp only [direction] at hnext
    split at hnext
    · rename_i au al b hau hal hb
      rw [hprev] at hnext
      have hne : (-1 : Int) ≠ 1 := by decide
      simp only [dirStep, if_neg hne] at hnext
      by_cases hc : b.close > au
      · exact ⟨b, au, hb, hau, hc⟩
      · rw [if_neg hc] at hnext
        cases hnext
    · cases hnext

/-- Closed witness for `c6_direction_flip_requires_cross`: a concrete
bullish→bearish flip on `dFlipDown` and a concrete bearish→bullish flip on
`dFlipUp`, both with period 1 and multiplier 1. -/
theorem c6_direction_flip_requires_cross_witness :
    (∃ b al, dFlipDown.get? 2 = some b ∧ adjLower dFlipDown 1 1 2 = some al ∧
      b.close < al) ∧
    (∃ b au, dFlipUp.get? 1 = some b ∧ adjUpper dFlipUp 1 1 1 = some au ∧
      b.close > au) :=
  ⟨(c6_direction_flip_requires_cross dFlipDown 1 1 1).1
     (by norm_num [direction, adjUpper, adjLower, rawUpper, rawLower, computeATR,
       trueRange, dirSeed, dirStep, dFlipDown, List.range_succ, max_def, abs])
     (by norm_num [direction, adjUpper, adjLower, rawUpper, rawLower, computeATR,
       trueRange, dirSeed, dirStep, dFlipDown, List.range_succ, max_def, abs]),
   (c6_direction_flip_requires_cross dFlipUp 1 1 0).2
     (by norm_num [direction, adjUpper, adjLower, rawUpper, rawLower, computeATR,
       trueRange, dirSeed, dirStep, dFlipUp, List.range_succ, max_def, abs])
     (by norm_num [direction, adjUpper, adjLower, rawUpper, rawLower, computeATR,
       trueRange, dirSeed, dirStep, dFlipUp, List.range_succ, max_def, abs])⟩

/-! ## Claim C1 witness -/

/-- Closed witness for `c1_only_get_root_implemented`: a concrete `GET /`
request receives the fixed body, and `computeATR` is not a name defined in
the source. -/
theorem c1_only_get_root_implemented_witness :
    handle ⟨"GET", "/", [], ""⟩ = some welcomeBody ∧
    "computeATR" ∉ indexJsTopLevelNames :=
  ⟨c1_only_get_root_implemented.2.1 ⟨"GET", "/", [], ""⟩ rfl rfl,
   c1_only_get_root_implemented.2.2.2 ("computeATR") (by decide)⟩

/-! ## Claim C2 -/

/-- C2: in dual mode the slow Trend Resolver output of `generateSignals` is
computed with multiplier exactly `atr_multiplier + 1`, so with multiplier 4
in the default case `atr_multiplier = 3`. -/
theorem c2_slow_uses_multiplier_plus_one (data : List Bar) (p : ℕ) (m : ℚ)
    (hm : 0 < m) (out : List SignalRecord)
    (h : generateSignals data p m true = .ok out) (i : ℕ) (hi : i < out.length) :
    (out.get ⟨i, hi⟩).slow_direction = direction data p (m + 1) i ∧
    (out.get ⟨i, hi⟩).slow_supertrend = supertrendValue data p (m + 1) i ∧
    (m = 3 → (out.get ⟨i, hi⟩).slow_direction = direction data p 4 i) := by
  rw [generateSignals_get data p m true out h i hi]
  refine ⟨by simp, by simp, fun h3 => ?_⟩
  subst h3
  norm_num

/-- Closed witness for `c2_slow_uses_multiplier_plus_one` at the default
multiplier 3 on the concrete series `dW`. -/
theorem c2_slow_uses_multiplier_plus_one_witness :
    (outW3.get ⟨1, by decide⟩).slow_direction = direction dW 2 (3 + 1) 1 ∧
    (outW3.get ⟨1, by decide⟩).slow_supertrend = supertrendValue dW 2 (3 + 1) 1 ∧
    ((3 : ℚ) = 3 → (outW3.get ⟨1, by decide⟩).slow_direction = direction dW 2 4 1) :=
  c2_slow_uses_multiplier_plus_one dW 2 3 (by norm_num) outW3
    generateSignals_dW3_eq 1 (by decide)

/-! ## Claim C3 -/

/-- C3: in dual mode the per-bar signal of `generateSignals` is `+1` iff both
direction series are bullish, `-1` iff both are bearish, and `0` exactly when
the two direction series disagree. -/
theorem c3_dual_signal_iff (data : List Bar) (p : ℕ) (m : ℚ)
    (out : List SignalRecord) (h : generateSignals data p m true = .ok out)
    (i : ℕ) (hi : i < out.length) (d₁ d₂ : Int)
    (h₁ : direction data p m i = some d₁)
    (h₂ : direction data p (m + 1) i = some d₂) :
    ((out.get ⟨i, hi⟩).signal = 1 ↔ (d₁ = 1 ∧ d₂ = 1)) ∧
    ((out.get ⟨i, hi⟩).signal = -1 ↔ (d₁ = -1 ∧ d₂ = -1)) ∧
    ((out.get ⟨i, hi⟩).signal = 0 ↔ d₁ ≠ d₂) := by
  rw [generateSignals_get data p m true out h i hi]
  rcases direction_mem data p m i d₁ h₁ with rfl | rfl <;>
    rcases direction_mem data p (m + 1) i d₂ h₂ with rfl | rfl <;>
    simp [signal, h₁, h₂]

/-- Closed witness for `c3_dual_signal_iff` on `dW` at bar 1, where both
directions are bullish. -/
theorem c3_dual_signal_iff_witness :
    ((outW.get ⟨1, by decide⟩).signal = 1 ↔ ((1 : Int) = 1 ∧ (1 : Int) = 1)) ∧
    ((outW.get ⟨1, by decide⟩).signal = -1 ↔ ((1 : Int) = -1 ∧ (1 : Int) = -1)) ∧
    ((outW.get ⟨1, by decide⟩).signal = 0 ↔ (1 : Int) ≠ 1) :=
  c3_dual_signal_iff dW 2 1 outW generateSignals_dW_eq 1 (by decide) 1 1
    (by norm_num [direction, adjUpper, adjLower, rawUpper, rawLower, computeATR,
      trueRange, dirSeed, dirStep, dW, List.range_succ, max_def, abs])
    (by norm_num [direction, adjUpper, adjLower, rawUpper, rawLower, computeATR,
      trueRange, dirSeed, dirStep, dW, List.range_succ, max_def, abs])

/-! ## Claim C4 -/

/-- C4: True Range at bar 0 is `high - low`; at bar `i ≥ 1` it is
`max(high_i - low_i, |high_i - close_{i-1}|, |low_i - close_{i-1}|)`; the ATR
is the simple moving average of True Range over the trailing `period` bars,
undefined (`none`, never zero) before `period` observations exist. -/
theorem c4_true_range_and_atr :
    (∀ (data : List Bar) (b : Bar), data.get? 0 = some b →
      trueRange data 0 = some (b.high - b.low)) ∧
    (∀ (data : List Bar) (i : ℕ) (b pb : Bar),
      data.get? (i + 1) = some b → data.get? i = some pb →
      trueRange data (i + 1) =
        some (max (b.high - b.low)
          (max (abs (b.high - pb.close)) (abs (b.low - pb.close))))) ∧
    (∀ (data : List Bar) (period i : ℕ), 1 ≤ period → i < data.length →
      ((computeATR data period i = none ↔ i + 1 < period) ∧
       (period ≤ i + 1 →
         computeATR data period i = some
           (((List.range period).map (fun j => (trueRange data (i - j)).getD 0)).sum
             / (period : ℚ))))) := by
  refine ⟨fun data b hb => ?_, fun data i b pb hb hpb => ?_,
    fun data period i hp hi => ⟨?_, fun hle => ?_⟩⟩
  · simp only [trueRange]
    rw [hb]
    rfl
  · simp only [trueRange]
    rw [hb, hpb]
  · unfold computeATR
    by_cases hc : 1 ≤ period ∧ period ≤ i + 1 ∧ i < data.length
    · rw [if_pos hc]
      simp only [reduceCtorEq, false_iff]
      omega
    · rw [if_neg hc]
      have hgt : ¬ period ≤ i + 1 := fun hle => hc ⟨hp, hle, hi⟩
      simp only [true_iff]
      omega
  · unfold computeATR
    rw [if_pos ⟨hp, hle, hi⟩]

/-- Closed witness for `c4_true_range_and_atr` on `dW`. -/
theorem c4_true_range_and_atr_witness :
    trueRange dW 0 = some ((10 : ℚ) - 5) ∧ (computeATR dW 2 0 = none ↔ 0 + 1 < 2) :=
  ⟨c4_true_range_and_atr.1 dW ⟨0, 8, 10, 5, 8⟩ rfl,
   (c4_true_range_and_atr.2.2 dW 2 0 (by decide) (by decide)).1⟩

/-! ## Claim C7 -/

/-- C7: the position-change field of `generateSignals` output is zero at the
first bar and equals `signal_i - signal_{i-1}` at every later bar, hence is
all-zero whenever the signal series is constant. -/
theorem c7_position_change_def (data : List Bar) (p : ℕ) (m : ℚ) (dual : Bool)
    (out : List SignalRecord) (h : generateSignals data p m dual = .ok out) :
    (∀ h0 : 0 < out.length, (out.get ⟨0, h0⟩).position_change = 0) ∧
    (∀ i (hi1 : i + 1 < out.length) (hi : i < out.length),
      (out.get ⟨i + 1, hi1⟩).position_change =
        (out.get ⟨i + 1, hi1⟩).signal - (out.get ⟨i, hi⟩).signal) ∧
    ((∀ i (hi : i < out.length) j (hj : j < out.length),
        (out.get ⟨i, hi⟩).signal = (out.get ⟨j, hj⟩).signal) →
      ∀ i (hi : i < out.length), (out.get ⟨i, hi⟩).position_change = 0) := by
  refine ⟨fun h0 => ?_, fun i hi1 hi => ?_, fun hconst i hi => ?_⟩
  · rw [generateSignals_get data p m dual out h 0 h0]
    rfl
  · rw [generateSignals_get data p m dual out h (i + 1) hi1,
       generateSignals_get data p m dual out h i hi]
    rfl
  · cases i with
    | zero =>
      rw [generateSignals_get data p m dual out h 0 hi]
      rfl
    | succ j =>
      have hj : j < out.length := Nat.lt_of_succ_lt hi
      have he := hconst (j + 1) hi j hj
      rw [generateSignals_get data p m dual out h (j + 1) hi,
          generateSignals_get data p m dual out h j hj] at he
      rw [generateSignals_get data p m dual out h (j + 1) hi]
      simp only at he
      show positionChange data p m dual (j + 1) = 0
      simp only [positionChange]
      rw [he, sub_self]

/-- Closed witness for `c7_position_change_def` on the concrete output
`outW`. -/
theorem c7_position_change_def_witness :
    (outW.get ⟨0, by decide⟩).position_change = 0 ∧
    (outW.get ⟨2, by decide⟩).position_change =
      (outW.get ⟨2, by decide⟩).signal - (outW.get ⟨1, by decide⟩).signal :=
  ⟨(c7_position_change_def dW 2 1 true outW generateSignals_dW_eq).1 (by decide),
   (c7_position_change_def dW 2 1 true outW generateSignals_dW_eq).2.1 1
     (by decide) (by decide)⟩

/-! ## Claim C8 -/

/-- C8: for a positive period and multiplier, `generateSignals` fails with
`InsufficientData` exactly when the input is shorter than `atr_period + 1`;
any error yields no output series at all, and success yields the full series,
one record per input bar. -/
theorem c8_insufficient_data_exact (data : List Bar) (p : ℕ) (m : ℚ)
    (dual : Bool) (hp : 1 ≤ p) (hm : 0 < m) :
    ((generateSignals data p m dual = .error .InsufficientData) ↔
      data.length < p + 1) ∧
    (∀ e out, generateSignals data p m dual = .error e →
      generateSignals data p m dual ≠ .ok out) ∧
    (∀ out, generateSignals data p m dual = .ok out →
      out.length = data.length) := by
  have hc1 : ¬ (p = 0 ∨ m ≤ 0) := by
    rintro (h0 | h0)
    · omega
    · exact absurd hm (not_lt_of_le h0)
  refine ⟨?_, fun e out he ho => ?_, fun out ho => ?_⟩
  · unfold generateSignals
    rw [if_neg hc1]
    by_cases hlen : data.length < p + 1
    · rw [if_pos hlen]
      exact ⟨fun _ => hlen, fun _ => rfl⟩
    · rw [if_neg hlen]
      constructor
      · intro hcontr
        by_cases hw : (timestampsIncreasing data && barsWellFormed data) = true
        · rw [if_pos hw] at hcontr
          cases hcontr
        · rw [if_neg hw] at hcontr
          simp at hcontr
      · intro hcontr
        exact absurd hcontr hlen
  · rw [he] at ho
    cases ho
  · have hout := generateSignals_ok data p m dual out ho
    subst hout
    simp

/-- Closed witness for `c8_insufficient_data_exact` on the concrete call
`generateSignals dW 2 1 true`. -/
theorem c8_insufficient_data_exact_witness :
    ((generateSignals dW 2 1 true = .error .InsufficientData) ↔
      dW.length < 2 + 1) ∧
    outW.length = dW.length :=
  ⟨(c8_insufficient_data_exact dW 2 1 true (by decide) (by norm_num)).1,
   (c8_insufficient_data_exact dW 2 1 true (by decide) (by norm_num)).2.2 outW
     generateSignals_dW_eq⟩

/-! ## Claim C9 -/

/-- C9: the pipeline is deterministic — two invocations of `generateSignals`
on identical input and parameters return the same result, and identical
successful outputs agree on every field of every bar. -/
theorem c9_deterministic (data : List Bar) (p : ℕ) (m : ℚ) (dual : Bool) :
    generateSignals data p m dual = generateSignals data p m dual ∧
    (∀ o₁ o₂, generateSignals data p m dual = .ok o₁ →
      generateSignals data p m dual = .ok o₂ →
      o₁ = o₂ ∧ ∀ i (h₁ : i < o₁.length) (h₂ : i < o₂.length),
        o₁.get ⟨i, h₁⟩ = o₂.get ⟨i, h₂⟩) := by
  refine ⟨rfl, fun o₁ o₂ h₁ h₂ => ?_⟩
  rw [h₁] at h₂
  cases h₂
  exact ⟨rfl, fun i hi₁ hi₂ => rfl⟩

/-- Closed witness for `c9_deterministic` on the concrete call
`generateSignals dW 2 1 true`. -/
theorem c9_deterministic_witness : outW = outW :=
  ((c9_deterministic dW 2 1 true).2 outW outW generateSignals_dW_eq
    generateSignals_dW_eq).1

end TradingBot
